import Mathlib

/-!
Verification development for the CORD-19 analysis pipeline
(`analysis.py`: load / clean / aggregate; `app.py`: interactive explorer).

The tabular data is embedded shallowly: a pandas DataFrame row becomes a
`Record` whose cells are `Option`-valued (with `none` playing the role of
pandas `NaN` / absent), a DataFrame becomes a `List Record`, and each pandas
column operation becomes the corresponding per-record map or filter.
-/

namespace Cord19

/-- A parsed calendar date (the payload of a pandas `datetime64` cell). -/
structure Date where
  year : Nat
  month : Nat
  day : Nat
deriving DecidableEq

/-- State of the `publish_time` cell: absent (`NaN`/`NaT`), still raw text
(as loaded from CSV), or parsed to a datetime (after `pd.to_datetime`). -/
inductive PTime where
  | absent
  | raw (s : String)
  | parsed (d : Date)
deriving DecidableEq

/-- One metadata row.  `year` and `abstract_word_count` are `none` until the
cleaning step creates those columns. -/
structure Record where
  title : Option String
  abstract : Option String
  authors : Option String
  journal : Option String
  source : Option String
  publish_time : PTime
  year : Option Int
  abstract_word_count : Option Nat
deriving DecidableEq

/-- Maximal runs of non-whitespace characters (the helper behind Python
`str.split()` with no argument).  `acc` holds the current run, reversed. -/
def wordsAux : List Char → List Char → List (List Char)
  | [], acc => if acc.isEmpty then [] else [acc.reverse]
  | c :: cs, acc =>
    if c.isWhitespace then
      if acc.isEmpty then wordsAux cs [] else acc.reverse :: wordsAux cs []
    else wordsAux cs (c :: acc)

/-- Python `str.split()` with no argument: split on whitespace runs and
discard empty pieces. -/
def pySplit (s : String) : List String :=
  (wordsAux s.toList []).map String.mk

/-- Split a character list at every occurrence of `sep`, keeping empty
pieces (the semantics of Python `str.split(sep)` on a single character). -/
def splitSep (sep : Char) : List Char → List (List Char)
  | [] => [[]]
  | c :: cs =>
    if c = sep then [] :: splitSep sep cs
    else
      match splitSep sep cs with
      | t :: ts => (c :: t) :: ts
      | [] => [[c]]

/-- Digits-only string to number; `none` if empty or any non-digit occurs. -/
def digitsToNat? (cs : List Char) : Option Nat :=
  if cs.isEmpty then none
  else
    cs.foldl
      (fun acc c =>
        acc.bind (fun n => if c.isDigit then some (n * 10 + (c.toNat - 48)) else none))
      (some 0)

/-- Modelled from the spec: `pd.to_datetime(..., errors = coerce)` is library
code, not part of this repository; the spec only requires that a parseable
date string yields its calendar date and an unparseable one degrades to
absent.  We model the ISO `YYYY-MM-DD` format used by the scenarios; any
other shape fails to `none` (coerced to absent by the caller). -/
def parseDate (s : String) : Option Date :=
  match splitSep '-' s.toList with
  | [y, m, d] =>
    match digitsToNat? y, digitsToNat? m, digitsToNat? d with
    | some yn, some mn, some dn =>
      if y.length = 4 ∧ 1 ≤ mn ∧ mn ≤ 12 ∧ 1 ≤ dn ∧ dn ≤ 31 then
        some ⟨yn, mn, dn⟩
      else none
    | _, _, _ => none
  | _ => none

/-- `pd.to_datetime(col, errors = coerce)` on one cell: raw text parses or
coerces to absent; an already-parsed datetime passes through unchanged. -/
def toDatetime : PTime → PTime
  | .absent => .absent
  | .raw s =>
    match parseDate s with
    | some d => .parsed d
    | none => .absent
  | .parsed d => .parsed d

/-- `.dt.year` on one cell: the calendar year of a parsed date, else absent. -/
def yearOf : PTime → Option Int
  | .parsed d => some (d.year : Int)
  | _ => none

/-- `analysis.py` line 72: `df_clean[publish_time] = pd.to_datetime(...)`. -/
def parseStep (r : Record) : Record :=
  { r with publish_time := toDatetime r.publish_time }

/-- `analysis.py` line 79: `df_clean[year] = df_clean[publish_time].dt.year`. -/
def yearStep (r : Record) : Record :=
  { r with year := yearOf r.publish_time }

/-- `analysis.py` lines 88-90: `abstract_word_count` from
`df_clean[abstract].fillna(empty).apply(lambda x: len(str(x).split()))`. -/
def awcStep (r : Record) : Record :=
  { r with abstract_word_count := some (pySplit (r.abstract.getD "")).length }

/-- `analysis.py` line 94: `df_clean[journal] = df_clean[journal].fillna(Unknown)`. -/
def journalStep (r : Record) : Record :=
  { r with journal := some (r.journal.getD "Unknown") }

/-- `analysis.py` lines 62-98, `clean_and_prepare_data`: copy, parse dates,
extract year, drop rows with absent year (line 82), cast year to int (line 83,
an identity in this embedding since `year` is already integer-typed), derive
the abstract word count, fill missing journals. -/
def clean_and_prepare_data (df : List Record) : List Record :=
  ((((df.map parseStep).map yearStep).filter
      (fun r => r.year.isSome)).map awcStep).map journalStep

/-- The per-record effect of the whole cleaning sequence: `none` when the row
is dropped, `some` of its cleaned image otherwise. -/
def cleanFn (r : Record) : Option Record :=
  let r1 := yearStep (parseStep r)
  if r1.year.isSome then some (journalStep (awcStep r1)) else none

theorem clean_eq_filterMap (df : List Record) :
    clean_and_prepare_data df = df.filterMap cleanFn := by
  induction df with
  | nil => rfl
  | cons r t ih =>
    simp only [clean_and_prepare_data, List.map_cons, List.filter_cons,
      List.filterMap_cons, cleanFn] at *
    by_cases h : (yearStep (parseStep r)).year.isSome
    · simp only [h, if_pos, List.map_cons]
      exact congrArg _ ih
    · simp only [eq_false_of_ne_true h, Bool.false_eq_true, if_false]
      exact ih

/-! ### Aggregation (analysis.py lines 104-141, app.py lines 114-190) -/

/-- Descending-by-count order used by `value_counts` / `Counter.most_common`. -/
def byCountDesc {α : Type} (a b : α × Nat) : Prop := b.2 ≤ a.2

instance {α : Type} : DecidableRel (@byCountDesc α) :=
  fun a b => inferInstanceAs (Decidable (b.2 ≤ a.2))

instance {α : Type} : IsTotal (α × Nat) byCountDesc :=
  ⟨fun a b => (Nat.le_total a.2 b.2).symm⟩

instance {α : Type} : IsTrans (α × Nat) byCountDesc :=
  ⟨fun _ _ _ hab hbc => Nat.le_trans hbc hab⟩

/-- Ascending order on the index used by `.sort_index()`. -/
def byYearAsc (a b : Int × Nat) : Prop := a.1 ≤ b.1

instance : DecidableRel byYearAsc :=
  fun a b => inferInstanceAs (Decidable (a.1 ≤ b.1))

instance : IsTotal (Int × Nat) byYearAsc := ⟨fun a b => Int.le_total a.1 b.1⟩

instance : IsTrans (Int × Nat) byYearAsc := ⟨fun _ _ _ => Int.le_trans⟩

/-- `Series.value_counts()`: one `(value, count)` pair per distinct non-absent
value, sorted by count descending (absent cells are dropped by the caller via
`filterMap`; the tie order among equal counts is not fixed by pandas, the
model uses a stable sort over the dedup order). -/
def value_counts {α : Type} [DecidableEq α] (l : List α) : List (α × Nat) :=
  List.insertionSort byCountDesc (l.dedup.map (fun k => (k, l.count k)))

/-- `analysis.py` line 112: `df_clean[year].value_counts().sort_index()`. -/
def papers_by_year (df : List Record) : List (Int × Nat) :=
  List.insertionSort byYearAsc (value_counts (df.filterMap (fun r => r.year)))

/-- Full journal frequency table `df[journal].value_counts()`. -/
def journal_counts (df : List Record) : List (String × Nat) :=
  value_counts (df.filterMap (fun r => r.journal))

/-- `analysis.py` line 117 / `app.py` line 129:
`df[journal].value_counts().head(n)` (n = 10 in both paths). -/
def top_journals (df : List Record) (n : Nat) : List (String × Nat) :=
  (journal_counts df).take n

/-- Full source frequency table `df[source].value_counts()`. -/
def source_counts (df : List Record) : List (String × Nat) :=
  value_counts (df.filterMap (fun r => r.source))

/-- `analysis.py` line 122 / `app.py` line 143:
`df[source].value_counts().head(n)` (n = 10 batch, 8 interactive). -/
def top_sources (df : List Record) (n : Nat) : List (String × Nat) :=
  (source_counts df).take n

/-- Stop words of the batch path (`analysis.py` lines 128-130). -/
def stop_words_batch : List String :=
  ["a", "the", "and", "or", "of", "in", "to", "for", "with",
   "is", "on", "at", "by", "from", "as", "an", "be", "this",
   "that", "are", "have", "has", "was", "were", "been"]

/-- Stop words of the interactive path (`app.py` lines 177-180): the batch
set plus domain terms. -/
def stop_words_interactive : List String :=
  stop_words_batch ++
    ["covid", "coronavirus", "virus", "sars", "cov", "19", "disease"]

/-- One token of a title: strip non-alphanumeric characters, keep the result
only if it is non-empty, not a stop word, and longer than 3 characters
(`analysis.py` lines 136-138 / `app.py` lines 185-187). -/
def qualifyWord (stop : List String) (w : String) : Option String :=
  let w1 := String.mk (w.toList.filter Char.isAlphanum)
  if w1 ≠ "" ∧ w1 ∉ stop ∧ 3 < w1.length then some w1 else none

/-- Python `str.lower()`, character by character. -/
def lowerString (s : String) : String :=
  String.mk (s.toList.map Char.toLower)

/-- The full token stream over a list of (non-absent) titles: lower-case,
split on whitespace, qualify each token
(`analysis.py` lines 132-138 / `app.py` lines 182-187). -/
def tokenizeTitles (titles : List String) (stop : List String) : List String :=
  titles.flatMap (fun t => (pySplit (lowerString t)).filterMap (qualifyWord stop))

/-- Full token frequency table, `Counter(all_words)` sorted descending. -/
def word_counts (df : List Record) (stop : List String) : List (String × Nat) :=
  value_counts (tokenizeTitles (df.filterMap (fun r => r.title)) stop)

/-- `Counter(all_words).most_common(k)` (`analysis.py` line 140 with
`stop_words_batch` and k = 15, `app.py` line 189 with
`stop_words_interactive` and k = 20). -/
def top_words (df : List Record) (stop : List String) (k : Nat) :
    List (String × Nat) :=
  (word_counts df stop).take k

/-! ### Interactive surface (app.py) -/

/-- `app.py` lines 76-80: keep records whose year lies in the slider range and
whose journal is among the selected ones.  As in pandas, a comparison against
an absent cell is false, and `isin` is false for an absent cell. -/
def df_filtered (df : List Record) (lo hi : Int) (sel : List String) :
    List Record :=
  df.filter (fun r =>
    (match r.year with
     | some y => decide (lo ≤ y) && decide (y ≤ hi)
     | none => false)
    && (match r.journal with
        | some j => decide (j ∈ sel)
        | none => false))

/-- `app.py` line 83: the Filtered Papers metric displays `len(df_filtered)`. -/
def filtered_papers_metric (df : List Record) (lo hi : Int)
    (sel : List String) : Nat :=
  (df_filtered df lo hi sel).length

/-- The error text shown by `app.py` line 38 (modulo the emoji and quote
marks of the literal). -/
def missing_file_message : String :=
  "Please run the analysis script first to generate cord19_cleaned.csv"

/-- `app.py` lines 30-39, `load_data`: the file system is modelled as an
`Option` holding the persisted cleaned table when the file exists.  On
success the table is returned after re-parsing `publish_time` (line 35); on
`FileNotFoundError` an error message is emitted and `None` is returned.
Result: (returned table, emitted error message). -/
def load_data (persisted : Option (List Record)) :
    Option (List Record) × Option String :=
  match persisted with
  | some t => (some (t.map parseStep), none)
  | none => (none, some missing_file_message)

/-- `app.py` line 44: the entire page body is guarded by `if df is not None`,
so the surface renders further content iff `load_data` returned a table. -/
def renders_content (persisted : Option (List Record)) : Bool :=
  (load_data persisted).1.isSome

/-! ### Statement-level embedding of the cleaning function (for the frame
property): `clean_and_prepare_data` works on `df_clean`, a copy of the
argument `df`, and never writes to `df` itself. -/

/-- The two data-frame variables in scope inside `clean_and_prepare_data`. -/
structure CleanState where
  df : List Record
  df_clean : List Record
deriving DecidableEq

/-- Line 68: `df_clean = df.copy()`. -/
def stmtCopy (s : CleanState) : CleanState :=
  { s with df_clean := s.df }

/-- Line 72: `df_clean[publish_time] = pd.to_datetime(df_clean[publish_time], errors = coerce)`. -/
def stmtToDatetime (s : CleanState) : CleanState :=
  { s with df_clean := s.df_clean.map parseStep }

/-- Line 79: `df_clean[year] = df_clean[publish_time].dt.year`. -/
def stmtYear (s : CleanState) : CleanState :=
  { s with df_clean := s.df_clean.map yearStep }

/-- Line 82: `df_clean = df_clean.dropna(subset=[year])`. -/
def stmtDropna (s : CleanState) : CleanState :=
  { s with df_clean := s.df_clean.filter (fun r => r.year.isSome) }

/-- Line 83: `df_clean[year] = df_clean[year].astype(int)` — an identity on
this embedding, where `year` already holds integers. -/
def stmtAstypeInt (s : CleanState) : CleanState :=
  { s with df_clean := s.df_clean.map (fun r => { r with year := r.year }) }

/-- Lines 88-90: `df_clean[abstract_word_count] = ...`. -/
def stmtAwc (s : CleanState) : CleanState :=
  { s with df_clean := s.df_clean.map awcStep }

/-- Line 94: `df_clean[journal] = df_clean[journal].fillna(Unknown)`. -/
def stmtJournal (s : CleanState) : CleanState :=
  { s with df_clean := s.df_clean.map journalStep }

/-- The body of `clean_and_prepare_data` as a sequence of statements acting
on the variable state. -/
def cleanProgram (s : CleanState) : CleanState :=
  stmtJournal (stmtAwc (stmtAstypeInt (stmtDropna (stmtYear
    (stmtToDatetime (stmtCopy s))))))

/-! ### Helper lemmas about the cleaning function -/

theorem toDatetime_cases (p : PTime) :
    toDatetime p = .absent ∨ ∃ d, toDatetime p = .parsed d := by
  cases p with
  | absent => exact Or.inl rfl
  | raw s =>
    cases h : parseDate s with
    | none => exact Or.inl (by simp [toDatetime, h])
    | some d => exact Or.inr ⟨d, by simp [toDatetime, h]⟩
  | parsed d => exact Or.inr ⟨d, rfl⟩

/-- The record produced by the cleaning sequence from `r`, given that its
`publish_time` parsed to the date `d`. -/
def cleanedImage (r : Record) (d : Date) : Record :=
  { r with
    publish_time := .parsed d,
    year := some (d.year : Int),
    abstract_word_count := some (pySplit (r.abstract.getD "")).length,
    journal := some (r.journal.getD "Unknown") }

/-- The image of one record under the whole cleaning sequence, split on
whether its `publish_time` parses. -/
theorem cleanFn_eq (r : Record) :
    cleanFn r =
      match toDatetime r.publish_time with
      | .parsed d => some (cleanedImage r d)
      | _ => none := by
  rcases toDatetime_cases r.publish_time with h | ⟨d, h⟩ <;>
    simp [cleanFn, cleanedImage, parseStep, yearStep, awcStep, journalStep, yearOf, h]

theorem mem_clean_iff {df : List Record} {r' : Record} :
    r' ∈ clean_and_prepare_data df ↔ ∃ r ∈ df, cleanFn r = some r' := by
  rw [clean_eq_filterMap]
  simp [List.mem_filterMap]

/-- Cleaned records are fixed points of the per-record cleaning function. -/
theorem cleanFn_idem {r r' : Record} (h : cleanFn r = some r') :
    cleanFn r' = some r' := by
  rw [cleanFn_eq] at h
  rcases toDatetime_cases r.publish_time with hp | ⟨d, hp⟩
  · rw [hp] at h
    rcases h
  · rw [hp] at h
    rw [Option.some.injEq] at h
    subst h
    rw [cleanFn_eq]
    simp [cleanFn_eq, cleanedImage, toDatetime]

/-! ### Concrete example records used by scenarios and witnesses -/

/-- A row whose `publish_time` does not parse as a date. -/
def rNotADateEx : Record :=
  { title := some "T1", abstract := some "A", authors := none,
    journal := some "J", source := some "S",
    publish_time := .raw "not a date", year := none,
    abstract_word_count := none }

/-- A row with a parseable `publish_time` and the scenario abstract. -/
def rParsedEx : Record :=
  { title := some "COVID-19 Disease Spread",
    abstract := some "SARS-CoV-2 causes severe disease", authors := none,
    journal := some "J", source := some "S",
    publish_time := .raw "2020-03-15", year := none,
    abstract_word_count := none }

/-- A row with every optional cell absent except a parseable date. -/
def rNullEx : Record :=
  { title := none, abstract := none, authors := none,
    journal := none, source := none,
    publish_time := .raw "2021-01-02", year := none,
    abstract_word_count := none }

theorem parseDate_notadate : parseDate "not a date" = none := by decide

theorem parseDate_iso : parseDate "2020-03-15" = some ⟨2020, 3, 15⟩ := by decide

/-! ### Claim C1 -/

/-- C1: for every input table, cleaning yields a table in which every record
has a non-absent year and a non-absent journal, the year being the calendar
year of the parsed `publish_time`; a record whose `publish_time` is
`"not a date"` is dropped entirely, one whose `publish_time` is
`"2020-03-15"` survives with year 2020, and an absent journal is replaced by
the literal `"Unknown"`. -/
theorem C1_cleaning_postconditions (df : List Record) :
    (∀ r' ∈ clean_and_prepare_data df, r'.year.isSome ∧ r'.journal.isSome) ∧
    (∀ r' ∈ clean_and_prepare_data df, ∃ d : Date,
        r'.publish_time = PTime.parsed d ∧ r'.year = some (d.year : Int)) ∧
    (∀ (pre post : List Record) (r : Record),
        r.publish_time = PTime.raw "not a date" →
        clean_and_prepare_data (pre ++ r :: post) =
          clean_and_prepare_data pre ++ clean_and_prepare_data post) ∧
    (∀ (pre post : List Record) (r : Record),
        r.publish_time = PTime.raw "2020-03-15" →
        clean_and_prepare_data (pre ++ r :: post) =
          clean_and_prepare_data pre ++
            cleanedImage r ⟨2020, 3, 15⟩ :: clean_and_prepare_data post ∧
        (cleanedImage r ⟨2020, 3, 15⟩).year = some 2020) ∧
    (∀ r : Record, r.journal = none →
        ∀ r' ∈ clean_and_prepare_data [r], r'.journal = some "Unknown") := by
  refine ⟨?_, ?_, ?_, ?_, ?_⟩
  · intro r' hr'
    obtain ⟨r, _, hfn⟩ := mem_clean_iff.1 hr'
    rw [cleanFn_eq] at hfn
    rcases toDatetime_cases r.publish_time with hp | ⟨d, hp⟩ <;> rw [hp] at hfn
    · exact absurd hfn (by simp)
    · rw [Option.some.injEq] at hfn
      subst hfn
      simp [cleanedImage]
  · intro r' hr'
    obtain ⟨r, _, hfn⟩ := mem_clean_iff.1 hr'
    rw [cleanFn_eq] at hfn
    rcases toDatetime_cases r.publish_time with hp | ⟨d, hp⟩ <;> rw [hp] at hfn
    · exact absurd hfn (by simp)
    · rw [Option.some.injEq] at hfn
      subst hfn
      exact ⟨d, by simp [cleanedImage]⟩
  · intro pre post r h
    have hfn : cleanFn r = none := by
      rw [cleanFn_eq, h]
      simp [toDatetime, parseDate_notadate]
    simp only [clean_eq_filterMap, List.filterMap_append, List.filterMap_cons, hfn]
  · intro pre post r h
    have hfn : cleanFn r = some (cleanedImage r ⟨2020, 3, 15⟩) := by
      rw [cleanFn_eq, h]
      simp [toDatetime, parseDate_iso]
    constructor
    · simp only [clean_eq_filterMap, List.filterMap_append, List.filterMap_cons, hfn]
    · simp [cleanedImage]
  · intro r h r' hr'
    obtain ⟨r0, hr0, hfn⟩ := mem_clean_iff.1 hr'
    rw [List.mem_singleton] at hr0
    rw [hr0] at hfn
    rw [cleanFn_eq] at hfn
    rcases toDatetime_cases r.publish_time with hp | ⟨d, hp⟩ <;> rw [hp] at hfn
    · exact absurd hfn (by simp)
    · rw [Option.some.injEq] at hfn
      subst hfn
      simp [cleanedImage, h]

/-- Witness for C1: each hypothesis of `C1_cleaning_postconditions`
discharged at a concrete record. -/
theorem C1_cleaning_postconditions_witness :
    clean_and_prepare_data ([] ++ rNotADateEx :: []) =
      clean_and_prepare_data [] ++ clean_and_prepare_data [] ∧
    (cleanedImage rParsedEx ⟨2020, 3, 15⟩).year = some 2020 ∧
    (cleanedImage rNullEx ⟨2021, 1, 2⟩).journal = some "Unknown" :=
  ⟨(C1_cleaning_postconditions []).2.2.1 [] [] rNotADateEx rfl,
   ((C1_cleaning_postconditions []).2.2.2.1 [] [] rParsedEx rfl).2,
   (C1_cleaning_postconditions []).2.2.2.2 rNullEx rfl
     (cleanedImage rNullEx ⟨2021, 1, 2⟩) (by decide)⟩

/-! ### Claim C3 -/

/-- C3 counterexample: the scenario abstract
`"SARS-CoV-2 causes severe disease"` has 4 whitespace-separated tokens, so
the cleaned record carries `abstract_word_count = 4`, not 6 as claimed. -/
theorem C3_counterexample :
    (clean_and_prepare_data [rParsedEx]).map (fun r => r.abstract_word_count) =
      [some 4] ∧ some (4 : Nat) ≠ some 6 := by decide

/-- C3 (amended): for every record surviving cleaning,
`abstract_word_count` is the number of whitespace-separated tokens of its
abstract, an absent abstract giving count 0; in particular the abstract
`"SARS-CoV-2 causes severe disease"` gives count 4. -/
theorem C3_abstract_word_count (df : List Record) :
    (∀ r' ∈ clean_and_prepare_data df,
        r'.abstract_word_count = some (pySplit (r'.abstract.getD "")).length) ∧
    (∀ r' ∈ clean_and_prepare_data df, r'.abstract = none →
        r'.abstract_word_count = some 0) ∧
    (∀ r : Record, r.abstract = some "SARS-CoV-2 causes severe disease" →
        ∀ r' ∈ clean_and_prepare_data [r],
          r'.abstract_word_count = some 4) := by
  have key : ∀ r r' : Record, cleanFn r = some r' →
      r'.abstract = r.abstract ∧
      r'.abstract_word_count = some (pySplit (r.abstract.getD "")).length := by
    intro r r' hfn
    rw [cleanFn_eq] at hfn
    rcases toDatetime_cases r.publish_time with hp | ⟨d, hp⟩ <;> rw [hp] at hfn
    · exact absurd hfn (by simp)
    · rw [Option.some.injEq] at hfn
      subst hfn
      simp [cleanedImage]
  refine ⟨?_, ?_, ?_⟩
  · intro r' hr'
    obtain ⟨r, _, hfn⟩ := mem_clean_iff.1 hr'
    obtain ⟨ha, hw⟩ := key r r' hfn
    rw [hw, ha]
  · intro r' hr' habs
    obtain ⟨r, _, hfn⟩ := mem_clean_iff.1 hr'
    obtain ⟨ha, hw⟩ := key r r' hfn
    rw [hw, ha.symm.trans habs]
    decide
  · intro r habs r' hr'
    obtain ⟨r0, hr0, hfn⟩ := mem_clean_iff.1 hr'
    rw [List.mem_singleton] at hr0
    rw [hr0] at hfn
    obtain ⟨_, hw⟩ := key r r' hfn
    rw [hw, habs]
    decide

/-- Witness for C3: the amended statement applied to concrete one-row
tables. -/
theorem C3_abstract_word_count_witness :
    (cleanedImage rParsedEx ⟨2020, 3, 15⟩).abstract_word_count =
      some (pySplit ((cleanedImage rParsedEx ⟨2020, 3, 15⟩).abstract.getD
        "")).length ∧
    (cleanedImage rNullEx ⟨2021, 1, 2⟩).abstract_word_count = some 0 :=
  ⟨(C3_abstract_word_count [rParsedEx]).1 _ (by decide),
   (C3_abstract_word_count [rNullEx]).2.1 _ (by decide) (by decide)⟩

/-! ### Claim C7 -/

/-- C7: the cleaning transform sequence is idempotent — applying it to an
already-cleaned table returns that table unchanged. -/
theorem C7_clean_idempotent (df : List Record) :
    clean_and_prepare_data (clean_and_prepare_data df) =
      clean_and_prepare_data df := by
  rw [clean_eq_filterMap df, clean_eq_filterMap (df.filterMap cleanFn),
    List.filterMap_filterMap]
  have hfun : (fun r => (cleanFn r).bind cleanFn) = cleanFn := by
    funext r
    cases h : cleanFn r with
    | none => simp [h]
    | some r' => simp [h, cleanFn_idem h]
  rw [hfun]

/-- Witness for C7 at a concrete two-row table. -/
theorem C7_clean_idempotent_witness :
    clean_and_prepare_data (clean_and_prepare_data [rParsedEx, rNotADateEx]) =
      clean_and_prepare_data [rParsedEx, rNotADateEx] :=
  C7_clean_idempotent [rParsedEx, rNotADateEx]

/-! ### Claim C9 -/

/-- C9: when the persisted cleaned table file is missing, `load_data`
reports the run-the-batch-pipeline-first message, returns no table, and the
page guard renders nothing further. -/
theorem C9_missing_file_recoverable :
    load_data none = (none, some missing_file_message) ∧
    renders_content none = false :=
  ⟨rfl, rfl⟩

/-! ### Claim C10 -/

/-- C10: `clean_and_prepare_data` performs every transform on the copy
`df_clean` and leaves its argument `df` unchanged. -/
theorem C10_input_not_mutated (df work : List Record) :
    (cleanProgram ⟨df, work⟩).df = df ∧
    (cleanProgram ⟨df, work⟩).df_clean = clean_and_prepare_data df := by
  constructor
  · rfl
  · have hid : ∀ l : List Record,
        l.map (fun r => { r with year := r.year }) = l := by
      intro l
      rw [show (fun r : Record => { r with year := r.year }) = id from rfl,
        List.map_id]
    simp only [cleanProgram, stmtJournal, stmtAwc, stmtAstypeInt, stmtDropna,
      stmtYear, stmtToDatetime, stmtCopy, hid, clean_and_prepare_data]

/-- Witness for C10 at a concrete state. -/
theorem C10_input_not_mutated_witness :
    (cleanProgram ⟨[rParsedEx], []⟩).df = [rParsedEx] :=
  (C10_input_not_mutated [rParsedEx] []).1

/-! ### Helper lemmas for the aggregation summaries -/

theorem sorted_value_counts {α : Type} [DecidableEq α] (l : List α) :
    List.Sorted byCountDesc (value_counts l) :=
  List.sorted_insertionSort byCountDesc _

theorem value_counts_perm {α : Type} [DecidableEq α] (l : List α) :
    List.Perm (value_counts l) (l.dedup.map (fun k => (k, l.count k))) :=
  List.perm_insertionSort byCountDesc _

theorem papers_by_year_perm (df : List Record) :
    List.Perm (papers_by_year df)
      ((df.filterMap (fun r => r.year)).dedup.map
        (fun y => (y, (df.filterMap (fun r => r.year)).count y))) :=
  (List.perm_insertionSort byYearAsc _).trans (value_counts_perm _)

/-- A top-N result `res` cut from the full descending table `full`:
bounded length, descending counts, and no kept count below a dropped one. -/
def topNGoodAt (res full : List (String × Nat)) (n : Nat) : Prop :=
  res.length ≤ n ∧ List.Sorted byCountDesc res ∧
    ∀ a ∈ res, ∀ b ∈ full.drop n, b.2 ≤ a.2

theorem take_topNGood (full : List (String × Nat))
    (h : List.Sorted byCountDesc full) (n : Nat) :
    topNGoodAt (full.take n) full n := by
  refine ⟨List.length_take_le n full, ?_, ?_⟩
  · exact List.Pairwise.sublist (List.take_sublist n full) h
  · have h2 : List.Pairwise byCountDesc (full.take n ++ full.drop n) := by
      rw [List.take_append_drop]
      exact h
    exact fun a ha b hb => (List.pairwise_append.1 h2).2.2 a ha b hb

/-- Count in the extracted `year` column versus row count with that year. -/
theorem count_year_eq_filter_length (df : List Record) (y : Int) :
    (df.filterMap (fun r => r.year)).count y =
      (df.filter (fun r => decide (r.year = some y))).length := by
  induction df with
  | nil => rfl
  | cons r t ih =>
    cases hy : r.year with
    | none => simp [List.filterMap_cons, List.filter_cons, hy, ih]
    | some y0 =>
      by_cases hyy : y0 = y
      · subst hyy
        simp [List.filterMap_cons, List.filter_cons, hy, List.count_cons, ih]
      · simp [List.filterMap_cons, List.filter_cons, hy, List.count_cons, ih,
          hyy, Ne.symm hyy]

/-- Summing, over the distinct values, the multiplicity of each value gives
back the length of the list. -/
theorem sum_map_count_dedup {α : Type} [DecidableEq α] (l : List α) :
    (l.dedup.map (fun a => l.count a)).sum = l.length := by
  have h1 := List.sum_toFinset (fun a => l.count a) (List.nodup_dedup l)
  have hd : l.dedup.toFinset = l.toFinset :=
    List.toFinset_eq_iff_perm_dedup.2 (by rw [List.dedup_idem])
  rw [hd] at h1
  rw [← h1]
  exact List.sum_toFinset_count_eq_length l

theorem filterMap_year_length (df : List Record)
    (h : ∀ r ∈ df, (r.year).isSome) :
    (df.filterMap (fun r => r.year)).length = df.length := by
  induction df with
  | nil => rfl
  | cons r t ih =>
    obtain ⟨y, hy⟩ := Option.isSome_iff_exists.1 (h r (List.mem_cons_self r t))
    simp [List.filterMap_cons, hy,
      ih (fun x hx => h x (List.mem_cons_of_mem r hx))]

/-! ### Claim C2 -/

/-- A row carrying the first scenario title. -/
def rTitle1Ex : Record :=
  { title := some "COVID-19 Disease Spread", abstract := none,
    authors := none, journal := none, source := none,
    publish_time := .absent, year := none, abstract_word_count := none }

/-- A row carrying the second scenario title. -/
def rTitle2Ex : Record :=
  { title := some "Disease spread patterns", abstract := none,
    authors := none, journal := none, source := none,
    publish_time := .absent, year := none, abstract_word_count := none }

/-- C2 counterexample: on the scenario titles the token `covid-19` strips to
`covid19`, which is non-empty, 7 characters long, and not in the interactive
stop-word set, so it qualifies — `spread` and `patterns` are not the only
qualifying tokens. -/
theorem C2_counterexample :
    ¬ (∀ w ∈ tokenizeTitles ["COVID-19 Disease Spread", "Disease spread patterns"]
          stop_words_interactive, w = "spread" ∨ w = "patterns") := by decide

/-- C2 (amended): on the scenario titles with the interactive stop-word set,
the qualifying tokens are exactly `covid19`, `spread`, `spread`, `patterns`,
so the frequency aggregation yields `spread` with count 2, `patterns` with
count 1 and `covid19` with count 1 and nothing else. -/
theorem C2_word_frequency :
    tokenizeTitles ["COVID-19 Disease Spread", "Disease spread patterns"]
        stop_words_interactive = ["covid19", "spread", "spread", "patterns"] ∧
    word_counts [rTitle1Ex, rTitle2Ex] stop_words_interactive =
      [("spread", 2), ("covid19", 1), ("patterns", 1)] := by decide

/-! ### Claim C4 -/

/-- C4: on an empty cleaned table every aggregation summary is empty, and a
summary whose grouping column is entirely absent is empty as well (the
aggregations are total functions, so no error can be raised). -/
theorem C4_empty_degrades (df : List Record) (n k : Nat) (stop : List String) :
    (df = [] → papers_by_year df = [] ∧ top_journals df n = [] ∧
      top_sources df n = [] ∧ top_words df stop k = []) ∧
    ((∀ r ∈ df, r.year = none) → papers_by_year df = []) ∧
    ((∀ r ∈ df, r.journal = none) → top_journals df n = []) ∧
    ((∀ r ∈ df, r.source = none) → top_sources df n = []) ∧
    ((∀ r ∈ df, r.title = none) → top_words df stop k = []) := by
  refine ⟨?_, ?_, ?_, ?_, ?_⟩
  · rintro rfl
    exact ⟨rfl, List.take_nil, List.take_nil, List.take_nil⟩
  · intro h
    have he : df.filterMap (fun r => r.year) = [] :=
      List.filterMap_eq_nil_iff.2 h
    rw [papers_by_year, he]
    rfl
  · intro h
    have he : df.filterMap (fun r => r.journal) = [] :=
      List.filterMap_eq_nil_iff.2 h
    rw [top_journals, journal_counts, he]
    exact List.take_nil
  · intro h
    have he : df.filterMap (fun r => r.source) = [] :=
      List.filterMap_eq_nil_iff.2 h
    rw [top_sources, source_counts, he]
    exact List.take_nil
  · intro h
    have he : df.filterMap (fun r => r.title) = [] :=
      List.filterMap_eq_nil_iff.2 h
    rw [top_words, word_counts, he]
    exact List.take_nil

/-- Witness for C4: the degradations at an empty table, at a one-row table
whose `year`, `journal` and `source` cells are all absent, and at a one-row
table with no title. -/
theorem C4_empty_degrades_witness :
    (papers_by_year [] = [] ∧ top_journals [] 10 = [] ∧
      top_sources [] 10 = [] ∧ top_words [] stop_words_batch 15 = []) ∧
    papers_by_year [rTitle1Ex] = [] ∧
    top_journals [rTitle1Ex] 10 = [] ∧
    top_sources [rTitle1Ex] 8 = [] ∧
    top_words [rNullEx] stop_words_interactive 20 = [] :=
  ⟨(C4_empty_degrades [] 10 15 stop_words_batch).1 rfl,
   (C4_empty_degrades [rTitle1Ex] 10 15 stop_words_batch).2.1 (by decide),
   (C4_empty_degrades [rTitle1Ex] 10 15 stop_words_batch).2.2.1 (by decide),
   (C4_empty_degrades [rTitle1Ex] 8 15 stop_words_batch).2.2.2.1 (by decide),
   (C4_empty_degrades [rNullEx] 10 20 stop_words_interactive).2.2.2.2
     (by decide)⟩

/-! ### Claim C5 -/

/-- C5: every top-N summary (journals, sources, title words, any N) has
length at most N, is sorted by count descending, and keeps no count smaller
than a count it excludes. -/
theorem C5_topn_properties (df : List Record) (n k : Nat)
    (stop : List String) :
    topNGoodAt (top_journals df n) (journal_counts df) n ∧
    topNGoodAt (top_sources df n) (source_counts df) n ∧
    topNGoodAt (top_words df stop k) (word_counts df stop) k :=
  ⟨take_topNGood _ (sorted_value_counts _) n,
   take_topNGood _ (sorted_value_counts _) n,
   take_topNGood _ (sorted_value_counts _) k⟩

/-- Witness for C5 at a concrete table and the default parameters. -/
theorem C5_topn_properties_witness :
    topNGoodAt (top_journals [rParsedEx, rTitle1Ex] 10)
      (journal_counts [rParsedEx, rTitle1Ex]) 10 :=
  (C5_topn_properties [rParsedEx, rTitle1Ex] 10 15 stop_words_batch).1

/-! ### Claim C6 -/

/-- C6: the year-count summary gives, per distinct year, the number of
records with that year; it is sorted by year ascending, has no repeated
year, covers every year present, and (on a cleaned table, i.e. no absent
year) its counts sum to the number of records. -/
theorem C6_year_counts (df : List Record)
    (h : ∀ r ∈ df, (r.year).isSome) :
    (∀ p ∈ papers_by_year df,
        p.2 = (df.filter (fun r => decide (r.year = some p.1))).length) ∧
    List.Sorted byYearAsc (papers_by_year df) ∧
    ((papers_by_year df).map Prod.fst).Nodup ∧
    (∀ r ∈ df, ∀ y : Int, r.year = some y →
        y ∈ (papers_by_year df).map Prod.fst) ∧
    ((papers_by_year df).map Prod.snd).sum = df.length := by
  have hperm := papers_by_year_perm df
  refine ⟨?_, ?_, ?_, ?_, ?_⟩
  · intro p hp
    obtain ⟨y, _, hpy⟩ := List.mem_map.1 (hperm.subset hp)
    rw [← hpy]
    exact count_year_eq_filter_length df y
  · exact List.sorted_insertionSort byYearAsc _
  · have h2 := hperm.map Prod.fst
    rw [List.map_map] at h2
    have h3 : (df.filterMap (fun r => r.year)).dedup.map
        (Prod.fst ∘ fun y => (y, (df.filterMap (fun r => r.year)).count y)) =
        (df.filterMap (fun r => r.year)).dedup := List.map_id _
    rw [h3] at h2
    exact (List.Perm.nodup_iff h2).2 (List.nodup_dedup _)
  · intro r hr y hy
    have h1 : y ∈ df.filterMap (fun r => r.year) :=
      List.mem_filterMap.2 ⟨r, hr, hy⟩
    have h2 : (y, (df.filterMap (fun r => r.year)).count y) ∈
        papers_by_year df :=
      hperm.mem_iff.2 (List.mem_map_of_mem _ (List.mem_dedup.2 h1))
    exact List.mem_map.2 ⟨_, h2, rfl⟩
  · have h2 := (hperm.map Prod.snd).sum_eq
    rw [List.map_map] at h2
    rw [h2]
    have h3 : (df.filterMap (fun r => r.year)).dedup.map
        (Prod.snd ∘ fun y => (y, (df.filterMap (fun r => r.year)).count y)) =
        (df.filterMap (fun r => r.year)).dedup.map
          (fun y => (df.filterMap (fun r => r.year)).count y) := rfl
    rw [h3, sum_map_count_dedup]
    exact filterMap_year_length df h

/-- A cleaned row with year 2020 and journal J1. -/
def rYearEx1 : Record :=
  { title := none, abstract := none, authors := none, journal := some "J1",
    source := some "S1", publish_time := .parsed ⟨2020, 1, 1⟩,
    year := some 2020, abstract_word_count := some 0 }

/-- A second cleaned row with year 2020. -/
def rYearEx2 : Record :=
  { title := none, abstract := none, authors := none, journal := some "J1",
    source := some "S2", publish_time := .parsed ⟨2020, 2, 1⟩,
    year := some 2020, abstract_word_count := some 0 }

/-- A cleaned row with year 2021 and journal J2. -/
def rYearEx3 : Record :=
  { title := none, abstract := none, authors := none, journal := some "J2",
    source := some "S1", publish_time := .parsed ⟨2021, 1, 1⟩,
    year := some 2021, abstract_word_count := some 0 }

/-- A concrete cleaned three-row table. -/
def dfYearsEx : List Record := [rYearEx1, rYearEx2, rYearEx3]

/-- Witness for C6: the cleanliness hypothesis discharged on a concrete
three-row table. -/
theorem C6_year_counts_witness :
    ((papers_by_year dfYearsEx).map Prod.snd).sum = dfYearsEx.length :=
  (C6_year_counts dfYearsEx (by decide)).2.2.2.2

/-! ### Claim C8 -/

/-- C8: the sidebar filter returns exactly the records whose journal is
selected and whose year lies in the inclusive range, and the Filtered Papers
metric equals the length of that filtered list. -/
theorem C8_filter_exact (df : List Record) (lo hi : Int)
    (sel : List String) :
    (∀ r, r ∈ df_filtered df lo hi sel ↔
        r ∈ df ∧ (∃ y, r.year = some y ∧ lo ≤ y ∧ y ≤ hi) ∧
          ∃ j, r.journal = some j ∧ j ∈ sel) ∧
    filtered_papers_metric df lo hi sel =
      (df_filtered df lo hi sel).length := by
  refine ⟨?_, rfl⟩
  intro r
  rw [df_filtered, List.mem_filter]
  constructor
  · rintro ⟨hmem, hcond⟩
    cases hy : r.year with
    | none =>
      rw [hy] at hcond
      simp at hcond
    | some y =>
      cases hj : r.journal with
      | none =>
        rw [hy, hj] at hcond
        simp at hcond
      | some j =>
        rw [hy, hj] at hcond
        simp only [Bool.and_eq_true, decide_eq_true_eq] at hcond
        exact ⟨hmem, ⟨y, rfl, hcond.1.1, hcond.1.2⟩, ⟨j, rfl, hcond.2⟩⟩
  · rintro ⟨hmem, ⟨y, hy, h1, h2⟩, ⟨j, hj, hjs⟩⟩
    refine ⟨hmem, ?_⟩
    rw [hy, hj]
    simp [h1, h2, hjs]

/-- Witness for C8: the year-range [2020, 2020] with journal set containing
J1 keeps the record with year 2020 and journal J1. -/
theorem C8_filter_exact_witness :
    rYearEx1 ∈ df_filtered dfYearsEx 2020 2020 ["J1"] :=
  ((C8_filter_exact dfYearsEx 2020 2020 ["J1"]).1 rYearEx1).2
    ⟨by decide, ⟨2020, by decide, by decide, by decide⟩,
     ⟨"J1", by decide, by decide⟩⟩

end Cord19
